import Mathlib

/-!
Verification of the Frankie rate quoting and optimization engine.

The quoting/optimization core (quote_engine.py, optimizer.py, analyzer.py)
is exercised here through a shallow embedding: rates and monetary values are
exact rationals, scenarios are records, fallible operations return `Except`.
The Gmail add-on extraction helpers (gmail-addon/Code.gs) and the frontend
API client (frontend-broker/src/api/rateSystem.ts) are embedded from their
sources directly.
-/

namespace Frankie

/-- Modelled from the spec: RateOffer record of §3 — one priced offer for a
loan product from one source (the engine module that declares it is not in
the source tree; only its README and clients are). -/
structure RateOffer where
  loan_type : String
  base_rate : ℚ
  base_apr : ℚ
  fees : ℚ
  lock_period_days : ℕ
  source : String
deriving DecidableEq, Repr

/-- Modelled from the spec: a RateTable is an immutable snapshot of offers,
keyed by loan_type (here a flat list, looked up by the loan_type field). -/
abbrev RateTable := List RateOffer

/-- Modelled from the spec: BorrowerScenario value object of §3. -/
structure BorrowerScenario where
  loan_amount : ℚ
  credit_score : ℤ
  ltv : ℚ
  loan_type : String
deriving DecidableEq, Repr

/-- Modelled from the spec: Adjustment record of §3 — the three LLPA
components and their rounded sum. -/
structure Adjustment where
  credit_score_component : ℚ
  ltv_component : ℚ
  loan_type_component : ℚ
  total : ℚ
deriving DecidableEq, Repr

/-- Modelled from the spec: credit-score LLPA tiers of §4.1. -/
def creditScoreComponent (score : ℤ) : ℚ :=
  if score < 680 then 1/8
  else if score < 720 then 1/16
  else if score < 760 then 0
  else -1/16

/-- Modelled from the spec: LTV LLPA tiers of §4.1. -/
def ltvComponent (ltv : ℚ) : ℚ :=
  if 80 < ltv then 1/4
  else if 70 < ltv then 1/8
  else if 60 < ltv then 1/16
  else 0

/-- Modelled from the spec: loan-type LLPA tiers of §4.1, keyed by the
loan_type identifiers used across the repository (government-insured low
leverage → FHA/USDA, veteran-guaranteed → VA, above conforming limit →
jumbo, adjustable initial period → ARM, standard fixed → 0). -/
def loanTypeComponent (lt : String) : ℚ :=
  if lt = "fha_30yr" ∨ lt = "usda_30yr" then 3/8
  else if lt = "va_30yr" then 1/8
  else if lt = "jumbo_30yr" then 1/4
  else if lt = "arm_5_1" ∨ lt = "arm_7_1" then -1/8
  else 0

/-- Round a rate delta to the nearest 0.0001 (one basis point), §4.1. -/
def roundBp (x : ℚ) : ℚ := (round (x * 10000) : ℚ) / 10000

/-- Modelled from the spec: `adjust(scenario) → Adjustment` of §4.1 — each
component independently computed, the total their sum rounded to the
nearest basis point. -/
def adjust (s : BorrowerScenario) : Adjustment :=
  let cs := creditScoreComponent s.credit_score
  let lv := ltvComponent s.ltv
  let lt := loanTypeComponent s.loan_type
  { credit_score_component := cs
    ltv_component := lv
    loan_type_component := lt
    total := roundBp (cs + lv + lt) }

/-- Modelled from the spec: term mapping of §4.2 — 15-year products map to
180 months, everything else (30-year and adjustable products) to 360. -/
def termMonths (lt : String) : ℕ :=
  if lt = "15yr_fixed" then 180 else 360

/-- Monthly rate from an annual percentage rate, §4.2. -/
def monthlyRate (annual_rate : ℚ) : ℚ := annual_rate / 12 / 100

/-- Modelled from the spec: `payment(principal, annual_rate, term_months)`
of §4.2 — standard fixed-payment amortization, written with the positive
power `(1+r)^n` (equivalent to the spec's `1 − (1+r)^(−n)` form, proved
below). -/
def payment (principal annual_rate : ℚ) (term_months : ℕ) : ℚ :=
  let r := monthlyRate annual_rate
  if r = 0 then principal / term_months
  else
    let pow := (1 + r) ^ term_months
    principal * r * pow / (pow - 1)

/-- Modelled from the spec: Quote record of §3. -/
structure Quote where
  scenario : BorrowerScenario
  base_rate : ℚ
  base_apr : ℚ
  adjustment : Adjustment
  final_rate : ℚ
  final_apr : ℚ
  monthly_payment : ℚ
  total_interest : ℚ
  is_eligible : Bool
  eligibility_reasons : List String
deriving DecidableEq, Repr

/-- Modelled from the spec: error taxonomy of §7. -/
inductive QuoteError where
  | validation (field : String)
  | notFound (loan_type : String)
  | computation (message : String)
deriving DecidableEq, Repr

instance {ε α : Type} [DecidableEq ε] [DecidableEq α] :
    DecidableEq (Except ε α) := fun a b =>
  match a, b with
  | .error e1, .error e2 =>
    if h : e1 = e2 then .isTrue (by rw [h]) else
      .isFalse (by intro hc; cases hc; exact h rfl)
  | .ok v1, .ok v2 =>
    if h : v1 = v2 then .isTrue (by rw [h]) else
      .isFalse (by intro hc; cases hc; exact h rfl)
  | .error _, .ok _ => .isFalse (by intro hc; cases hc)
  | .ok _, .error _ => .isFalse (by intro hc; cases hc)

/-- Scenario domain of §3: positive loan amount, credit score in [300,850],
LTV in (0,100]. -/
def ValidScenario (s : BorrowerScenario) : Prop :=
  0 < s.loan_amount ∧ 300 ≤ s.credit_score ∧ s.credit_score ≤ 850 ∧
    0 < s.ltv ∧ s.ltv ≤ 100

instance (s : BorrowerScenario) : Decidable (ValidScenario s) := by
  unfold ValidScenario; infer_instance

/-- Whether some offer in the table carries the given loan type. -/
def hasType (rt : RateTable) (lt : String) : Bool :=
  rt.any (fun o => o.loan_type = lt)

/-- Offer `b` beats offer `a` under the §4.3 tie-break order: strictly lower
base_rate, or equal base_rate and strictly lower fees (remaining ties keep
the first-listed offer). -/
def beatsOffer (a b : RateOffer) : Bool :=
  b.base_rate < a.base_rate ∨ (b.base_rate = a.base_rate ∧ b.fees < a.fees)

/-- Modelled from the spec: §4.3 step 3 — select the offer for a loan type
with the lowest base_rate, ties broken by lowest fees, further ties by the
first-listed source. -/
def selectOffer (lt : String) (rt : RateTable) : Option RateOffer :=
  (rt.filter (fun o => o.loan_type = lt)).foldl
    (fun acc o =>
      match acc with
      | none => some o
      | some a => if beatsOffer a o then some o else some a)
    none

/-- Modelled from the spec: §4.3 step 7 — absolute program credit floor. -/
def programFloor (_lt : String) : ℤ := 500

/-- Modelled from the spec: §4.3 step 7 — product maximum LTV (97%
conventional, 96.5% government-insured, 100% veteran-guaranteed). -/
def productMaxLtv (lt : String) : ℚ :=
  if lt = "va_30yr" then 100
  else if lt = "fha_30yr" ∨ lt = "usda_30yr" then 193/2
  else 97

/-- Modelled from the spec: eligibility reasons appended per §4.3 step 7,
one human-readable reason per violation. -/
def eligibilityReasons (s : BorrowerScenario) : List String :=
  (if s.credit_score < programFloor s.loan_type then
    ["credit score below program floor"] else []) ++
  (if productMaxLtv s.loan_type < s.ltv then
    ["ltv exceeds product maximum"] else [])

/-- Modelled from the spec: §4.3 step 7 — eligible unless the credit score
is below the program floor or the LTV exceeds the product maximum. -/
def isEligible (s : BorrowerScenario) : Bool :=
  ¬ s.credit_score < programFloor s.loan_type ∧
    ¬ productMaxLtv s.loan_type < s.ltv

/-- Modelled from the spec: `compute_quote(scenario, rate_table) → Quote`
of §4.3 — validate, resolve the loan type, select the best offer, apply the
adjustment with a floor at zero, amortize, and attach eligibility. -/
def compute_quote (s : BorrowerScenario) (rt : RateTable) :
    Except QuoteError Quote :=
  if s.loan_amount ≤ 0 then .error (.validation "loan_amount")
  else if s.credit_score < 300 ∨ 850 < s.credit_score then
    .error (.validation "credit_score")
  else if s.ltv ≤ 0 ∨ 100 < s.ltv then .error (.validation "ltv")
  else
    match selectOffer s.loan_type rt with
    | none => .error (.notFound s.loan_type)
    | some offer =>
      let adj := adjust s
      let final_rate := max 0 (offer.base_rate + adj.total)
      let final_apr := max 0 (offer.base_apr + adj.total)
      let term := termMonths s.loan_type
      let mp := payment s.loan_amount final_rate term
      .ok
        { scenario := s
          base_rate := offer.base_rate
          base_apr := offer.base_apr
          adjustment := adj
          final_rate := final_rate
          final_apr := final_apr
          monthly_payment := mp
          total_interest := mp * term - s.loan_amount
          is_eligible := isEligible s
          eligibility_reasons := eligibilityReasons s }

/-- Modelled from the spec: feasibility tiers of §3. -/
inductive Feasibility where
  | high
  | medium
  | low
deriving DecidableEq, Repr

/-- Modelled from the spec: OptimizationOption record of §3, with the
advisory note of the loan-type dimension (§4.4) and the alternative
loan type carried alongside the numeric values. -/
structure OptimizationOption where
  dimension : String
  current_value : ℚ
  recommended_value : ℚ
  recommended_loan_type : Option String
  resulting_quote : Quote
  rate_improvement : ℚ
  monthly_savings : ℚ
  feasibility : Feasibility
  roi_metric : Option ℚ
  note : Option String
deriving DecidableEq, Repr

/-- Build one OptimizationOption against a baseline quote: improvement and
savings are baseline minus variant, per §4.4. -/
def mkOption (dim : String) (cur tgt : ℚ) (recType : Option String)
    (base q : Quote) (f : Feasibility) (roi : Option ℚ)
    (note : Option String) : OptimizationOption :=
  { dimension := dim
    current_value := cur
    recommended_value := tgt
    recommended_loan_type := recType
    resulting_quote := q
    rate_improvement := base.final_rate - q.final_rate
    monthly_savings := base.monthly_payment - q.monthly_payment
    feasibility := f
    roi_metric := roi
    note := note }

/-- Modelled from the spec: §4.4 credit-score dimension candidates — the
targets 680, 720, 760 kept only when strictly above the current score. -/
def creditTargets (s : BorrowerScenario) : List ℤ :=
  [680, 720, 760].filter (fun t => s.credit_score < t)

/-- Modelled from the spec: §4.4 credit-score feasibility — gap ≤ 20 high,
21–60 medium, above 60 low. -/
def creditFeasibility (gap : ℤ) : Feasibility :=
  if gap ≤ 20 then .high else if gap ≤ 60 then .medium else .low

/-- Modelled from the spec: §4.4 credit-score dimension — re-quote each
qualifying target and record improvement, savings and feasibility. -/
def creditOptions (s : BorrowerScenario) (rt : RateTable) (base : Quote) :
    List OptimizationOption :=
  (creditTargets s).filterMap fun t =>
    (compute_quote { s with credit_score := t } rt).toOption.map fun q =>
      mkOption "credit_score" s.credit_score t none base q
        (creditFeasibility (t - s.credit_score)) none none

/-- Modelled from the spec: §4.4 LTV dimension candidates — the targets 80,
70, 60 kept only when strictly below the current LTV. -/
def ltvTargets (s : BorrowerScenario) : List ℚ :=
  [80, 70, 60].filter (fun t => t < s.ltv)

/-- Modelled from the spec: §4.4 — property value derived from the loan
amount and the LTV. -/
def propertyValue (s : BorrowerScenario) : ℚ :=
  s.loan_amount / (s.ltv / 100)

/-- Modelled from the spec: §4.4 LTV dimension — a larger down payment
shrinks both the LTV and the loan amount; ROI is the annualized savings
over the extra down payment, reported only when savings are positive
(otherwise feasibility is low and no ROI is reported; the positive-savings
feasibility is not pinned down by the spec and is fixed at medium). -/
def ltvOptions (s : BorrowerScenario) (rt : RateTable) (base : Quote) :
    List OptimizationOption :=
  let pv := propertyValue s
  (ltvTargets s).filterMap fun t =>
    let dpIncrease := pv * (s.ltv - t) / 100
    let newLoan := pv * t / 100
    (compute_quote { s with ltv := t, loan_amount := newLoan } rt).toOption.map
      fun q =>
        let savings := base.monthly_payment - q.monthly_payment
        if 0 < savings then
          mkOption "ltv" s.ltv t none base q .medium
            (some (savings * 12 / dpIncrease)) none
        else
          mkOption "ltv" s.ltv t none base q .low none none

/-- Modelled from the spec: §4.4 loan-amount dimension candidates — 5%,
10% and 15% reductions of the current loan amount. -/
def amountFactors : List ℚ := [95/100, 9/10, 85/100]

/-- Modelled from the spec: §4.4 loan-amount feasibility — 5% reduction
high, 10% medium, 15% low. -/
def amountFeasibility (f : ℚ) : Feasibility :=
  if f = 95/100 then .high else if f = 9/10 then .medium else .low

/-- Modelled from the spec: §4.4 loan-amount dimension — the LTV is
recomputed from the reduced loan amount and the derived property value
before re-quoting. -/
def amountOptions (s : BorrowerScenario) (rt : RateTable) (base : Quote) :
    List OptimizationOption :=
  let pv := propertyValue s
  amountFactors.filterMap fun f =>
    let newLoan := s.loan_amount * f
    let newLtv := newLoan / pv * 100
    (compute_quote { s with loan_amount := newLoan, ltv := newLtv } rt).toOption.map
      fun q =>
        mkOption "loan_amount" s.loan_amount newLoan none base q
          (amountFeasibility f) none none

/-- Every loan type present in the rate table other than the scenario's
own, first occurrences first. -/
def otherTypes (s : BorrowerScenario) (rt : RateTable) : List String :=
  ((rt.map (fun o => o.loan_type)).eraseDups).filter
    (fun t => ¬ t = s.loan_type)

/-- Modelled from the spec: §4.4 — advisory note for alternatives that
need external eligibility verification. -/
def typeNote (lt : String) : Option String :=
  if lt = "va_30yr" then
    some "requires external eligibility verification"
  else none

/-- Modelled from the spec: §4.4 loan-type dimension — every other loan
type present in the rate table, quoted with the same credit score and LTV
(the spec states no filter on the re-quoted rate for this dimension). -/
def typeOptions (s : BorrowerScenario) (rt : RateTable) (base : Quote) :
    List OptimizationOption :=
  (otherTypes s rt).filterMap fun lt2 =>
    (compute_quote { s with loan_type := lt2 } rt).toOption.map fun q =>
      mkOption "loan_type" 0 0 (some lt2) base q .medium none (typeNote lt2)

/-- Modelled from the spec: OptimizationResult record of §3 — one option
list per dimension plus the aggregation of §4.4. -/
structure OptimizationResult where
  baseline_quote : Quote
  credit_options : List OptimizationOption
  ltv_options : List OptimizationOption
  amount_options : List OptimizationOption
  type_options : List OptimizationOption
  best_option : Option OptimizationOption
  total_potential_savings : ℚ
  recommended_actions : List String
deriving DecidableEq, Repr

/-- All options of a result, across the four dimensions. -/
def OptimizationResult.allOptions (r : OptimizationResult) :
    List OptimizationOption :=
  r.credit_options ++ r.ltv_options ++ r.amount_options ++ r.type_options

/-- The option with the greatest monthly savings; earlier options win
ties (deterministic tie-break). -/
def pickBest (opts : List OptimizationOption) : Option OptimizationOption :=
  opts.foldl
    (fun acc o =>
      match acc with
      | none => some o
      | some b => if b.monthly_savings < o.monthly_savings then some o else some b)
    none

/-- Render one option as a short action string, §4.4 aggregation. -/
def renderAction (o : OptimizationOption) : String :=
  match o.recommended_loan_type with
  | some lt2 => "switch loan type to " ++ lt2
  | none => "move " ++ o.dimension ++ " to " ++ toString o.recommended_value

/-- Insert an option into a list kept in descending monthly-savings
order. -/
def insertBySavings (o : OptimizationOption) :
    List OptimizationOption → List OptimizationOption
  | [] => [o]
  | b :: rest =>
    if b.monthly_savings < o.monthly_savings then o :: b :: rest
    else b :: insertBySavings o rest

/-- Sort options by descending monthly savings (insertion sort, stable). -/
def sortBySavings : List OptimizationOption → List OptimizationOption
  | [] => []
  | o :: rest => insertBySavings o (sortBySavings rest)

/-- Modelled from the spec: §4.4 aggregation — the top option per
dimension, rendered as an action string, ordered by descending monthly
savings. -/
def recommendedActions (credit ltv amount types : List OptimizationOption) :
    List String :=
  (sortBySavings
      ([pickBest credit, pickBest ltv, pickBest amount,
        pickBest types].reduceOption)).map renderAction

/-- Modelled from the spec: `optimize(scenario, rate_table)` of §4.4 —
baseline quote, the four dimensions, and the aggregation; a degenerate
property value raises ComputationError per §7. -/
def optimize (s : BorrowerScenario) (rt : RateTable) :
    Except QuoteError OptimizationResult :=
  match compute_quote s rt with
  | .error e => .error e
  | .ok base =>
  if propertyValue s = 0 then
    .error (.computation "degenerate property value")
  else
    let credit := creditOptions s rt base
    let ltv := ltvOptions s rt base
    let amount := amountOptions s rt base
    let types := typeOptions s rt base
    let best := pickBest (credit ++ ltv ++ amount ++ types)
    .ok
      { baseline_quote := base
        credit_options := credit
        ltv_options := ltv
        amount_options := amount
        type_options := types
        best_option := best
        total_potential_savings :=
          match best with
          | none => 0
          | some b => base.total_interest - b.resulting_quote.total_interest
        recommended_actions := recommendedActions credit ltv amount types }

/-! ## Frontend API client (frontend-broker/src/api/rateSystem.ts)

The TypeScript interfaces are embedded as a field-level metamodel (name and
type of every declared field, in declaration order), and the four client
functions as response handlers: each receives the fetched HTTP response and
either throws (models `throw new Error(...)`) or returns the parsed body. -/

/-- Types a TypeScript interface field can carry in rateSystem.ts. -/
inductive TsType where
  | num
  | str
  | boolean
  | anyT
  | arrayOf (t : TsType)
  | obj (fields : List (String × TsType))

/-- Names of a TS field list, in declaration order. -/
def fieldNames (l : List (String × TsType)) : List String := l.map Prod.fst

/-- Look a field up by name. -/
def lookupField (l : List (String × TsType)) (n : String) : Option TsType :=
  (l.find? (fun f => f.1 = n)).map Prod.snd

/-- Whether a TS type is a plain object (a single record, not an array). -/
def TsType.isObj : TsType → Bool
  | .obj _ => true
  | _ => false

/-- Fields of the `llpas` sub-object of RateQuote (rateSystem.ts:10-14). -/
def llpasFields : List (String × TsType) :=
  [("credit_score_adjustment", .num), ("ltv_adjustment", .num),
   ("total_adjustment", .num)]

/-- Fields of the RateQuote interface (rateSystem.ts:1-19). -/
def rateQuoteFields : List (String × TsType) :=
  [("loan_amount", .num), ("credit_score", .num), ("ltv", .num),
   ("loan_type", .str), ("base_rate", .num), ("adjusted_rate", .num),
   ("monthly_payment", .num), ("total_interest", .num),
   ("llpas", .obj llpasFields),
   ("eligibility", .obj [("approved", .boolean), ("reasons", .arrayOf .str)])]

/-- Fields of the credit_score dimension object (rateSystem.ts:24-31). -/
def creditDimFields : List (String × TsType) :=
  [("current", .num), ("recommended", .num), ("rate_improvement", .num),
   ("monthly_savings", .num), ("feasibility", .str), ("roi_analysis", .str)]

/-- Fields of the ltv dimension object (rateSystem.ts:32-40). -/
def ltvDimFields : List (String × TsType) :=
  [("current", .num), ("recommended", .num), ("rate_improvement", .num),
   ("monthly_savings", .num), ("down_payment_increase", .num),
   ("feasibility", .str), ("roi_analysis", .str)]

/-- Fields of the loan_amount dimension object (rateSystem.ts:41-48). -/
def amountDimFields : List (String × TsType) :=
  [("current", .num), ("recommended", .num), ("rate_improvement", .num),
   ("monthly_savings", .num), ("feasibility", .str), ("roi_analysis", .str)]

/-- Fields of the `optimizations` sub-object of RateOptimization
(rateSystem.ts:23-49). -/
def optimizationsFields : List (String × TsType) :=
  [("credit_score", .obj creditDimFields), ("ltv", .obj ltvDimFields),
   ("loan_amount", .obj amountDimFields)]

/-- Fields of the RateOptimization interface (rateSystem.ts:21-55). -/
def rateOptimizationFields : List (String × TsType) :=
  [("current_scenario", .obj rateQuoteFields),
   ("optimizations", .obj optimizationsFields),
   ("summary", .obj
     [("best_optimization", .str), ("total_potential_savings", .num),
      ("recommended_actions", .arrayOf .str)])]

/-- An HTTP response as the client functions see it: the `ok` flag, the
status text interpolated into thrown messages, and the parsed JSON body. -/
structure HttpResponse (β : Type) where
  ok : Bool
  statusText : String
  body : β

/-- Parameters common to the quote/optimize/quick requests. -/
structure RateParams where
  loan_amount : ℚ
  credit_score : ℤ
  ltv : ℚ
  loan_type : String

/-- Embedded from rateSystem.ts:101-118 — `generateQuote` POSTs the params
once and throws exactly when the response is not ok. -/
def generateQuote (fetch : RateParams → HttpResponse β) (params : RateParams) :
    Except String β :=
  let response := fetch params
  if ¬ response.ok then
    .error ("Failed to generate quote: " ++ response.statusText)
  else .ok response.body

/-- Embedded from rateSystem.ts:121-138 — `optimizeRates`. -/
def optimizeRates (fetch : RateParams → HttpResponse β) (params : RateParams) :
    Except String β :=
  let response := fetch params
  if ¬ response.ok then
    .error ("Failed to optimize rates: " ++ response.statusText)
  else .ok response.body

/-- Embedded from rateSystem.ts:141-153 — `analyzeQuote` POSTs the quote and
borrower profile once. -/
def analyzeQuote (fetch : γ × δ → HttpResponse β) (quote : γ)
    (borrowerProfile : δ) : Except String β :=
  let response := fetch (quote, borrowerProfile)
  if ¬ response.ok then
    .error ("Failed to analyze quote: " ++ response.statusText)
  else .ok response.body

/-- Embedded from rateSystem.ts:156-181 — `quickRateAnalysis` GETs with the
params encoded in the query string. -/
def quickRateAnalysis (fetch : RateParams → HttpResponse β)
    (params : RateParams) : Except String β :=
  let response := fetch params
  if ¬ response.ok then
    .error ("Failed to perform quick rate analysis: " ++ response.statusText)
  else .ok response.body

/-! ## Gmail add-on extraction (gmail-addon/Code.gs)

The extraction helpers are regex scans over the email body; they are
embedded as character-list scans with the same alternation order, greedy
quantifiers and backtracking behaviour as the JavaScript patterns, with the
`/i` flag modelled by lowercasing the input first. -/

/-- JavaScript `\d` character class. -/
def isDigitCh (c : Char) : Bool := 48 ≤ c.toNat ∧ c.toNat ≤ 57

/-- Numeric value of a digit character. -/
def digitVal (c : Char) : ℕ := c.toNat - 48

/-- JavaScript `\s` character class (whitespace). -/
def isSpaceCh (c : Char) : Bool := c.isWhitespace

/-- Match a literal (lowercase) pattern at the head of the input and return
the remainder, or fail. -/
def dropLit : List Char → List Char → Option (List Char)
  | [], rest => some rest
  | _ :: _, [] => none
  | k :: ks, c :: cs => if c = k then dropLit ks cs else none

/-- Maximal-munch `\s*`. -/
def dropSpaces : List Char → List Char
  | [] => []
  | c :: cs => if isSpaceCh c then dropSpaces cs else c :: cs

/-- `\s+`: at least one whitespace character, then maximal munch. -/
def dropSpaces1 : List Char → Option (List Char)
  | [] => none
  | c :: cs => if isSpaceCh c then some (dropSpaces cs) else none

/-- Maximal-munch `[:\s]*`. -/
def dropColonSpaces : List Char → List Char
  | [] => []
  | c :: cs =>
    if c = ':' ∨ isSpaceCh c then dropColonSpaces cs else c :: cs

/-- The `(?:ltv|loan\s+to\s+value)` alternation of Code.gs:255, tried in
pattern order at one position. -/
def matchLtvKey (s : List Char) : Option (List Char) :=
  match dropLit "ltv".data s with
  | some r => some r
  | none =>
    (dropLit "loan".data s).bind fun r1 =>
    (dropSpaces1 r1).bind fun r2 =>
    (dropLit "to".data r2).bind fun r3 =>
    (dropSpaces1 r3).bind fun r4 =>
    dropLit "value".data r4

/-- One attempt of the LTV pattern `(?:ltv|loan\s+to\s+value)[:\s]*(\d{1,2})`
at a fixed start position: the greedy one-or-two-digit capture, parsed as a
number (Code.gs:254-257). -/
def tryLtvAt (s : List Char) : Option ℕ :=
  (matchLtvKey s).bind fun r =>
    match dropColonSpaces r with
    | [] => none
    | d1 :: rest =>
      if isDigitCh d1 then
        match rest with
        | d2 :: _ =>
          if isDigitCh d2 then some (10 * digitVal d1 + digitVal d2)
          else some (digitVal d1)
        | [] => some (digitVal d1)
      else none

/-- Leftmost-match scan for the LTV pattern. -/
def scanLtv : List Char → Option ℕ
  | [] => none
  | c :: cs =>
    match tryLtvAt (c :: cs) with
    | some v => some v
    | none => scanLtv cs

/-- Embedded from Code.gs:254-257 — `extractLTV`. -/
def extractLTV (text : String) : Option ℕ := scanLtv text.toLower.data

/-- The `(?:credit\s+score|fico|score)` alternation of Code.gs:250. -/
def matchCreditKey (s : List Char) : Option (List Char) :=
  match
    (dropLit "credit".data s).bind fun r1 =>
    (dropSpaces1 r1).bind fun r2 =>
    dropLit "score".data r2
  with
  | some r => some r
  | none =>
    match dropLit "fico".data s with
    | some r => some r
    | none => dropLit "score".data s

/-- One attempt of `(?:credit\s+score|fico|score)[:\s]*(\d{3})` at a fixed
start position (Code.gs:249-252). -/
def tryCreditAt (s : List Char) : Option ℕ :=
  (matchCreditKey s).bind fun r =>
    match dropColonSpaces r with
    | d1 :: d2 :: d3 :: _ =>
      if isDigitCh d1 ∧ isDigitCh d2 ∧ isDigitCh d3 then
        some (100 * digitVal d1 + 10 * digitVal d2 + digitVal d3)
      else none
    | _ => none

/-- Leftmost-match scan for the credit-score pattern. -/
def scanCredit : List Char → Option ℕ
  | [] => none
  | c :: cs =>
    match tryCreditAt (c :: cs) with
    | some v => some v
    | none => scanCredit cs

/-- Embedded from Code.gs:249-252 — `extractCreditScore`. -/
def extractCreditScore (text : String) : Option ℕ := scanCredit text.toLower.data

/-- Greedy alternatives for `\d{1,3}` at the head of the input: up to three
digits, longest first, each with the remaining input. -/
def leadDigitAlts (s : List Char) : List (List Char × List Char) :=
  match s with
  | d1 :: r1 =>
    if isDigitCh d1 then
      match r1 with
      | d2 :: r2 =>
        if isDigitCh d2 then
          match r2 with
          | d3 :: r3 =>
            if isDigitCh d3 then
              [([d1, d2, d3], r3), ([d1, d2], r2), ([d1], r1)]
            else [([d1, d2], r2), ([d1], r1)]
          | [] => [([d1, d2], r2), ([d1], r1)]
        else [([d1], r1)]
      | [] => [([d1], r1)]
    else []
  | [] => []

/-- Greedy alternatives for `(?:,\d{3})*`: the captured digits (commas
stripped, as `parseFloat(...replace(/,/g, ''))` does) and the remaining
input, longest iteration count first. -/
def commaGroupAlts : List Char → List (List Char × List Char)
  | ',' :: d1 :: d2 :: d3 :: r =>
    if isDigitCh d1 ∧ isDigitCh d2 ∧ isDigitCh d3 then
      ((commaGroupAlts r).map fun p => (d1 :: d2 :: d3 :: p.1, p.2)) ++
        [([], ',' :: d1 :: d2 :: d3 :: r)]
    else [([], ',' :: d1 :: d2 :: d3 :: r)]
  | s => [([], s)]

/-- Alternatives for `(?:\.\d{2})?`: with the two decimal digits when they
are present, then without. -/
def decimalAlts (s : List Char) : List (Option (Char × Char) × List Char) :=
  match s with
  | '.' :: d1 :: d2 :: r =>
    if isDigitCh d1 ∧ isDigitCh d2 then [(some (d1, d2), r), (none, s)]
    else [(none, s)]
  | _ => [(none, s)]

/-- The `(?:loan|mortgage|amount)` alternation of Code.gs:245. -/
def matchAmountKey (s : List Char) : Bool :=
  (dropLit "loan".data s).isSome ∨ (dropLit "mortgage".data s).isSome ∨
    (dropLit "amount".data s).isSome

/-- Digits to their decimal value. -/
def digitsToNat (ds : List Char) : ℕ :=
  ds.foldl (fun a c => 10 * a + digitVal c) 0

/-- One attempt of `\$?(\d{1,3}(?:,\d{3})*(?:\.\d{2})?)\s*(?:loan|mortgage|amount)`
at a fixed start position, with the backtracking order of the JavaScript
engine (Code.gs:244-247); the capture is parsed as `parseFloat` does after
the commas are stripped. -/
def tryAmountAt (s : List Char) : Option ℚ :=
  let s1 := match s with
    | '$' :: r => r
    | _ => s
  (leadDigitAlts s1).findSome? fun lead =>
    (commaGroupAlts lead.2).findSome? fun grp =>
      (decimalAlts grp.2).findSome? fun dec =>
        if matchAmountKey (dropSpaces dec.2) then
          some ((digitsToNat (lead.1 ++ grp.1) : ℚ) +
            match dec.1 with
            | some (d1, d2) => ((10 * digitVal d1 + digitVal d2 : ℕ) : ℚ) / 100
            | none => 0)
        else none

/-- Leftmost-match scan for the loan-amount pattern. -/
def scanAmount : List Char → Option ℚ
  | [] => none
  | c :: cs =>
    match tryAmountAt (c :: cs) with
    | some v => some v
    | none => scanAmount cs

/-- Embedded from Code.gs:244-247 — `extractLoanAmount`. -/
def extractLoanAmount (text : String) : Option ℚ := scanAmount text.toLower.data

/-- Case-insensitive substring test, as `text.match(/kw/i)` for a literal
keyword. -/
def containsSub (needle : List Char) : List Char → Bool
  | [] => (dropLit needle []).isSome
  | c :: rest => (dropLit needle (c :: rest)).isSome ∨ containsSub needle rest

/-- One attempt of `15\s*year` at a fixed start position. -/
def try15At (s : List Char) : Bool :=
  match dropLit "15".data s with
  | some r => (dropLit "year".data (dropSpaces r)).isSome
  | none => false

/-- Whether `15\s*year` matches anywhere. -/
def contains15Year : List Char → Bool
  | [] => false
  | c :: rest => try15At (c :: rest) ∨ contains15Year rest

/-- Embedded from Code.gs:259-265 — `extractLoanType`: a cascade of
substring tests with `30yr_fixed` as the fallthrough. -/
def extractLoanType (text : String) : String :=
  let t := text.toLower.data
  if containsSub "fha".data t then "fha_30yr"
  else if containsSub "va".data t then "va_30yr"
  else if containsSub "usda".data t then "usda_30yr"
  else if contains15Year t then "15yr_fixed"
  else "30yr_fixed"

/-- JavaScript `x || d` for a nullable rational: the default replaces both
`null` (no match) and a falsy parsed `0`. -/
def orFalsyQ (x : Option ℚ) (d : ℚ) : ℚ :=
  match x with
  | none => d
  | some v => if v = 0 then d else v

/-- JavaScript `x || d` for a nullable natural number. -/
def orFalsyN (x : Option ℕ) (d : ℕ) : ℕ :=
  match x with
  | none => d
  | some v => if v = 0 then d else v

/-- The object literal `extractLoanInfo` returns (Code.gs:233-238). -/
structure LoanInfo where
  loan_amount : ℚ
  credit_score : ℕ
  ltv : ℕ
  loan_type : String
deriving DecidableEq, Repr

/-- Embedded from Code.gs:226-239 — `extractLoanInfo`: each extractor's
result, with the JavaScript `||` defaults. -/
def extractLoanInfo (emailBody : String) : LoanInfo :=
  { loan_amount := orFalsyQ (extractLoanAmount emailBody) 500000
    credit_score := orFalsyN (extractCreditScore emailBody) 720
    ltv := orFalsyN (extractLTV emailBody) 80
    loan_type := extractLoanType emailBody }

/-! ## Properties of the adjustment model -/

/-- Rounding to the nearest basis point is the identity on multiples of a
sixteenth of a rate point. -/
theorem roundBp_div16 (k : ℤ) : roundBp ((k : ℚ) / 16) = (k : ℚ) / 16 := by
  unfold roundBp
  have h : ((k : ℚ) / 16) * 10000 = ((625 * k : ℤ) : ℚ) := by push_cast; ring
  rw [h, round_intCast]
  push_cast; ring

/-- Every credit tier delta is a multiple of one sixteenth. -/
theorem creditScoreComponent_sixteenth (score : ℤ) :
    ∃ k : ℤ, creditScoreComponent score = (k : ℚ) / 16 := by
  unfold creditScoreComponent
  split_ifs
  · exact ⟨2, by norm_num⟩
  · exact ⟨1, by norm_num⟩
  · exact ⟨0, by norm_num⟩
  · exact ⟨-1, by norm_num⟩

/-- Every LTV tier delta is a multiple of one sixteenth. -/
theorem ltvComponent_sixteenth (ltv : ℚ) :
    ∃ k : ℤ, ltvComponent ltv = (k : ℚ) / 16 := by
  unfold ltvComponent
  split_ifs
  · exact ⟨4, by norm_num⟩
  · exact ⟨2, by norm_num⟩
  · exact ⟨1, by norm_num⟩
  · exact ⟨0, by norm_num⟩

/-- Every loan-type tier delta is a multiple of one sixteenth. -/
theorem loanTypeComponent_sixteenth (lt : String) :
    ∃ k : ℤ, loanTypeComponent lt = (k : ℚ) / 16 := by
  unfold loanTypeComponent
  split_ifs
  · exact ⟨6, by norm_num⟩
  · exact ⟨2, by norm_num⟩
  · exact ⟨4, by norm_num⟩
  · exact ⟨-2, by norm_num⟩
  · exact ⟨0, by norm_num⟩

/-- The basis-point rounding in `adjust` is exact: the total is the plain
sum of the three components. -/
theorem adjust_total_exact (s : BorrowerScenario) :
    (adjust s).total =
      creditScoreComponent s.credit_score + ltvComponent s.ltv +
        loanTypeComponent s.loan_type := by
  obtain ⟨k1, h1⟩ := creditScoreComponent_sixteenth s.credit_score
  obtain ⟨k2, h2⟩ := ltvComponent_sixteenth s.ltv
  obtain ⟨k3, h3⟩ := loanTypeComponent_sixteenth s.loan_type
  show roundBp _ = _
  rw [h1, h2, h3]
  have hsum : (k1 : ℚ) / 16 + (k2 : ℚ) / 16 + (k3 : ℚ) / 16 =
      ((k1 + k2 + k3 : ℤ) : ℚ) / 16 := by push_cast; ring
  rw [hsum, roundBp_div16]

/-- A higher credit score never raises the credit LLPA. -/
theorem creditScoreComponent_antitone {a b : ℤ} (h : a ≤ b) :
    creditScoreComponent b ≤ creditScoreComponent a := by
  unfold creditScoreComponent
  split_ifs <;> first | (exfalso; omega) | norm_num

/-- A lower LTV never raises the LTV LLPA. -/
theorem ltvComponent_mono {a b : ℚ} (h : a ≤ b) :
    ltvComponent a ≤ ltvComponent b := by
  unfold ltvComponent
  split_ifs <;> first | (exfalso; linarith) | norm_num

/-- C2: for every scenario with credit_score in [300,850] and ltv in
(0,100], `adjust` returns the credit-score component per the four credit
tiers, the LTV component per the four LTV tiers, and a total equal to the
sum of the three components rounded to the nearest 0.0001 (the rounding
being exact here, the total is the plain sum). -/
theorem C2_adjust_tiers (s : BorrowerScenario)
    (_h1 : 300 ≤ s.credit_score) (_h2 : s.credit_score ≤ 850)
    (_h3 : 0 < s.ltv) (_h4 : s.ltv ≤ 100) :
    (adjust s).credit_score_component =
      (if s.credit_score < 680 then 1/8
       else if s.credit_score < 720 then 1/16
       else if s.credit_score < 760 then 0 else -1/16) ∧
    (adjust s).ltv_component =
      (if 80 < s.ltv then 1/4
       else if 70 < s.ltv then 1/8
       else if 60 < s.ltv then 1/16 else 0) ∧
    (adjust s).total =
      roundBp ((adjust s).credit_score_component + (adjust s).ltv_component +
        (adjust s).loan_type_component) ∧
    (adjust s).total =
      (adjust s).credit_score_component + (adjust s).ltv_component +
        (adjust s).loan_type_component := by
  refine ⟨rfl, rfl, rfl, ?_⟩
  exact adjust_total_exact s

/-- Scenario A of §8: the 680-score, 85-LTV, standard-fixed borrower. -/
def scenarioA : BorrowerScenario :=
  { loan_amount := 500000, credit_score := 680, ltv := 85,
    loan_type := "30yr_fixed" }

/-- Witness for C2 at Scenario A. -/
theorem C2_witness :
    300 ≤ scenarioA.credit_score ∧ scenarioA.credit_score ≤ 850 ∧
    0 < scenarioA.ltv ∧ scenarioA.ltv ≤ 100 ∧
    ((adjust scenarioA).credit_score_component =
      (if scenarioA.credit_score < 680 then 1/8
       else if scenarioA.credit_score < 720 then 1/16
       else if scenarioA.credit_score < 760 then 0 else -1/16) ∧
     (adjust scenarioA).ltv_component =
      (if 80 < scenarioA.ltv then 1/4
       else if 70 < scenarioA.ltv then 1/8
       else if 60 < scenarioA.ltv then 1/16 else 0) ∧
     (adjust scenarioA).total =
      roundBp ((adjust scenarioA).credit_score_component +
        (adjust scenarioA).ltv_component +
        (adjust scenarioA).loan_type_component) ∧
     (adjust scenarioA).total =
      (adjust scenarioA).credit_score_component +
        (adjust scenarioA).ltv_component +
        (adjust scenarioA).loan_type_component) :=
  ⟨by norm_num [scenarioA], by norm_num [scenarioA], by norm_num [scenarioA],
   by norm_num [scenarioA],
   C2_adjust_tiers scenarioA (by norm_num [scenarioA])
     (by norm_num [scenarioA]) (by norm_num [scenarioA])
     (by norm_num [scenarioA])⟩

/-! ## Properties of the quote engine -/

/-- Inversion of a successful `compute_quote`: the returned quote is built
from the selected offer, the adjustment, and the amortization, and the
scenario passed validation. -/
theorem compute_quote_ok_elim {s : BorrowerScenario} {rt : RateTable}
    {q : Quote} (h : compute_quote s rt = .ok q) :
    ∃ offer, selectOffer s.loan_type rt = some offer ∧
      q.scenario = s ∧
      q.base_rate = offer.base_rate ∧
      q.base_apr = offer.base_apr ∧
      q.adjustment = adjust s ∧
      q.final_rate = max 0 (offer.base_rate + (adjust s).total) ∧
      q.final_apr = max 0 (offer.base_apr + (adjust s).total) ∧
      q.monthly_payment =
        payment s.loan_amount (max 0 (offer.base_rate + (adjust s).total))
          (termMonths s.loan_type) ∧
      q.total_interest =
        q.monthly_payment * (termMonths s.loan_type : ℚ) - s.loan_amount ∧
      q.is_eligible = isEligible s ∧
      q.eligibility_reasons = eligibilityReasons s ∧
      ValidScenario s := by
  unfold compute_quote at h
  split_ifs at h with h1 h2 h3
  rcases hsel : selectOffer s.loan_type rt with _ | offer
  · rw [hsel] at h; exact absurd h (by simp)
  · rw [hsel] at h
    simp only [Except.ok.injEq] at h
    subst h
    refine ⟨offer, rfl, rfl, rfl, rfl, rfl, rfl, rfl, rfl, rfl, rfl, rfl, ?_⟩
    push_neg at h1 h2 h3
    exact ⟨h1, h2.1, h2.2, h3.1, h3.2⟩

/-- C3: the amortization formula — for positive principal, nonnegative
annual rate and a 180- or 360-month term, `payment` agrees with the
spec's `principal × r / (1 − (1+r)^(−n))` form when the monthly rate is
positive and with `principal / n` when it is zero; and every Quote that
`compute_quote` produces satisfies
`total_interest = monthly_payment × term_months − loan_amount` exactly. -/
theorem C3_payment_formula (principal annual_rate : ℚ) (term_months : ℕ)
    (_hp : 0 < principal) (_ha : 0 ≤ annual_rate)
    (_ht : term_months = 180 ∨ term_months = 360) :
    (0 < monthlyRate annual_rate →
      payment principal annual_rate term_months =
        principal * monthlyRate annual_rate /
          (1 - (1 + monthlyRate annual_rate) ^ (-(term_months : ℤ)))) ∧
    (monthlyRate annual_rate = 0 →
      payment principal annual_rate term_months =
        principal / (term_months : ℚ)) ∧
    (∀ (s : BorrowerScenario) (rt : RateTable) (q : Quote),
      compute_quote s rt = .ok q →
      q.total_interest =
        q.monthly_payment * (termMonths s.loan_type : ℚ) -
          q.scenario.loan_amount) := by
  refine ⟨?_, ?_, ?_⟩
  · intro hr
    have hr0 : monthlyRate annual_rate ≠ 0 := ne_of_gt hr
    have hbase : (0 : ℚ) < 1 + monthlyRate annual_rate := by linarith
    have hpow : (0 : ℚ) < (1 + monthlyRate annual_rate) ^ term_months :=
      pow_pos hbase term_months
    have hne : ((1 + monthlyRate annual_rate) ^ term_months : ℚ) ≠ 0 :=
      ne_of_gt hpow
    unfold payment
    rw [if_neg hr0, zpow_neg, zpow_natCast]
    have key : (1 : ℚ) - ((1 + monthlyRate annual_rate) ^ term_months)⁻¹ =
        ((1 + monthlyRate annual_rate) ^ term_months - 1) /
          (1 + monthlyRate annual_rate) ^ term_months := by
      rw [eq_div_iff hne, sub_mul, inv_mul_cancel₀ hne, one_mul]
    rw [key, div_div_eq_mul_div]
  · intro hr
    unfold payment
    rw [if_pos hr]
  · intro s rt q h
    obtain ⟨offer, _, hscen, _, _, _, _, _, _, hti, _⟩ :=
      compute_quote_ok_elim h
    rw [hti, hscen]

/-- C4: a successful quote floors both the final rate and the final APR at
zero on top of the base values plus the adjustment total, so both are
nonnegative. -/
theorem C4_rate_floor (s : BorrowerScenario) (rt : RateTable) (q : Quote)
    (h : compute_quote s rt = .ok q) :
    q.final_rate = max 0 (q.base_rate + q.adjustment.total) ∧
    q.final_apr = max 0 (q.base_apr + q.adjustment.total) ∧
    0 ≤ q.final_rate ∧ 0 ≤ q.final_apr := by
  obtain ⟨offer, _, _, hbr, hba, hadj, hfr, hfa, _⟩ := compute_quote_ok_elim h
  refine ⟨?_, ?_, ?_, ?_⟩
  · rw [hfr, hbr, hadj]
  · rw [hfa, hba, hadj]
  · rw [hfr]; exact le_max_left 0 _
  · rw [hfa]; exact le_max_left 0 _

/-- Witness for C3 at principal 500000, annual rate 6.125, term 360. -/
theorem C3_witness :
    (0 : ℚ) < 500000 ∧ (0 : ℚ) ≤ 49/8 ∧
    ((360 : ℕ) = 180 ∨ (360 : ℕ) = 360) ∧
    ((0 < monthlyRate (49/8) →
      payment 500000 (49/8) 360 =
        500000 * monthlyRate (49/8) /
          (1 - (1 + monthlyRate (49/8)) ^ (-((360 : ℕ) : ℤ)))) ∧
     (monthlyRate (49/8) = 0 →
      payment 500000 (49/8) 360 = 500000 / ((360 : ℕ) : ℚ)) ∧
     (∀ (s : BorrowerScenario) (rt : RateTable) (q : Quote),
      compute_quote s rt = .ok q →
      q.total_interest =
        q.monthly_payment * (termMonths s.loan_type : ℚ) -
          q.scenario.loan_amount)) :=
  ⟨by norm_num, by norm_num, Or.inr rfl,
   C3_payment_formula 500000 (49/8) 360 (by norm_num) (by norm_num)
     (Or.inr rfl)⟩

/-- A zero-rate offer used to keep witness quotes in closed form. -/
def offerZero : RateOffer :=
  { loan_type := "30yr_fixed", base_rate := 0, base_apr := 0, fees := 0,
    lock_period_days := 30, source := "test" }

/-- Scenario B of §8: the 760-score, 55-LTV borrower. -/
def scenarioB : BorrowerScenario :=
  { loan_amount := 500000, credit_score := 760, ltv := 55,
    loan_type := "30yr_fixed" }

/-- The quote `compute_quote` produces for Scenario B on the zero-rate
offer. -/
def quoteZero : Quote :=
  { scenario := scenarioB, base_rate := 0, base_apr := 0,
    adjustment :=
      { credit_score_component := -1/16, ltv_component := 0,
        loan_type_component := 0, total := -1/16 },
    final_rate := 0, final_apr := 0, monthly_payment := 12500/9,
    total_interest := 0, is_eligible := true, eligibility_reasons := [] }

/-- Constructor form of a successful `compute_quote` on a valid scenario
whose loan type resolves to an offer. -/
theorem compute_quote_ok_intro {s : BorrowerScenario} {rt : RateTable}
    {offer : RateOffer} (hv : ValidScenario s)
    (hsel : selectOffer s.loan_type rt = some offer) :
    compute_quote s rt = .ok
      { scenario := s
        base_rate := offer.base_rate
        base_apr := offer.base_apr
        adjustment := adjust s
        final_rate := max 0 (offer.base_rate + (adjust s).total)
        final_apr := max 0 (offer.base_apr + (adjust s).total)
        monthly_payment :=
          payment s.loan_amount (max 0 (offer.base_rate + (adjust s).total))
            (termMonths s.loan_type)
        total_interest :=
          payment s.loan_amount (max 0 (offer.base_rate + (adjust s).total))
            (termMonths s.loan_type) * (termMonths s.loan_type : ℚ) -
              s.loan_amount
        is_eligible := isEligible s
        eligibility_reasons := eligibilityReasons s } := by
  obtain ⟨h1, h2, h3, h4, h5⟩ := hv
  unfold compute_quote
  rw [if_neg (not_le.mpr h1), if_neg (by rintro (h | h) <;> omega),
    if_neg (by rintro (h | h) <;> linarith), hsel]

/-- The quote for Scenario B on the zero-rate table is `quoteZero`. -/
theorem compute_quote_scenarioB :
    compute_quote scenarioB [offerZero] = .ok quoteZero := by
  have hsel : selectOffer scenarioB.loan_type [offerZero] = some offerZero :=
    rfl
  rw [compute_quote_ok_intro (by norm_num [ValidScenario, scenarioB]) hsel]
  simp only [quoteZero, adjust, creditScoreComponent, ltvComponent,
    loanTypeComponent, roundBp, payment, monthlyRate, termMonths,
    isEligible, eligibilityReasons, programFloor, productMaxLtv, scenarioB,
    offerZero, String.reduceEq]
  norm_num [round_eq]

/-- Witness for C4 at Scenario B on the zero-rate table. -/
theorem C4_witness :
    compute_quote scenarioB [offerZero] = .ok quoteZero ∧
    (quoteZero.final_rate =
      max 0 (quoteZero.base_rate + quoteZero.adjustment.total) ∧
     quoteZero.final_apr =
      max 0 (quoteZero.base_apr + quoteZero.adjustment.total) ∧
     0 ≤ quoteZero.final_rate ∧ 0 ≤ quoteZero.final_apr) :=
  ⟨compute_quote_scenarioB,
   C4_rate_floor scenarioB [offerZero] quoteZero compute_quote_scenarioB⟩

/-- The adjustment total never rises when the credit score rises, the LTV
falls and the loan type stays fixed. -/
theorem adjust_total_le {s1 s2 : BorrowerScenario}
    (hc : s1.credit_score ≤ s2.credit_score) (hl : s2.ltv ≤ s1.ltv)
    (ht : s1.loan_type = s2.loan_type) :
    (adjust s2).total ≤ (adjust s1).total := by
  rw [adjust_total_exact, adjust_total_exact, ht]
  have h1 := creditScoreComponent_antitone hc
  have h2 := ltvComponent_mono hl
  linarith

/-- Two successful quotes for scenarios sharing a loan type share the
selected offer, so a smaller adjustment total gives a smaller final rate. -/
theorem final_rate_le_of_adjust_le {s1 s2 : BorrowerScenario}
    {rt : RateTable} {q1 q2 : Quote} (hlt : s1.loan_type = s2.loan_type)
    (h1 : compute_quote s1 rt = .ok q1) (h2 : compute_quote s2 rt = .ok q2)
    (hadj : (adjust s2).total ≤ (adjust s1).total) :
    q2.final_rate ≤ q1.final_rate := by
  obtain ⟨o1, hs1, _, _, _, _, hf1, _⟩ := compute_quote_ok_elim h1
  obtain ⟨o2, hs2, _, _, _, _, hf2, _⟩ := compute_quote_ok_elim h2
  rw [hlt, hs2, Option.some.injEq] at hs1
  rw [hf1, hf2, hs1]
  exact max_le_max le_rfl (by linarith)

/-- C5: holding the other scenario fields and the rate table fixed, a
higher credit score never yields a higher final rate, and a lower LTV
never yields a higher final rate. -/
theorem C5_final_rate_monotone (s : BorrowerScenario) (rt : RateTable)
    (c1 c2 : ℤ) (v1 v2 : ℚ) (hc : c1 ≤ c2)
    (_hc1 : 300 ≤ c1) (_hc2 : c2 ≤ 850)
    (hv : v1 ≤ v2) (_hv1 : 0 < v1) (_hv2 : v2 ≤ 100) :
    (∀ q1 q2 : Quote,
      compute_quote { s with credit_score := c1 } rt = .ok q1 →
      compute_quote { s with credit_score := c2 } rt = .ok q2 →
      q2.final_rate ≤ q1.final_rate) ∧
    (∀ q1 q2 : Quote,
      compute_quote { s with ltv := v1 } rt = .ok q1 →
      compute_quote { s with ltv := v2 } rt = .ok q2 →
      q1.final_rate ≤ q2.final_rate) := by
  constructor
  · intro q1 q2 h1 h2
    exact @final_rate_le_of_adjust_le { s with credit_score := c1 }
      { s with credit_score := c2 } rt q1 q2 rfl h1 h2
      (adjust_total_le hc le_rfl rfl)
  · intro q1 q2 h1 h2
    exact @final_rate_le_of_adjust_le { s with ltv := v2 }
      { s with ltv := v1 } rt q2 q1 rfl h2 h1
      (adjust_total_le le_rfl hv rfl)

/-- Witness for C5 with scores 680 ≤ 760 and LTVs 55 ≤ 85 around
Scenario A on the zero-rate table. -/
theorem C5_witness :
    (680 : ℤ) ≤ 760 ∧ (300 : ℤ) ≤ 680 ∧ (760 : ℤ) ≤ 850 ∧
    (55 : ℚ) ≤ 85 ∧ (0 : ℚ) < 55 ∧ (85 : ℚ) ≤ 100 ∧
    ((∀ q1 q2 : Quote,
      compute_quote { scenarioA with credit_score := 680 } [offerZero] = .ok q1 →
      compute_quote { scenarioA with credit_score := 760 } [offerZero] = .ok q2 →
      q2.final_rate ≤ q1.final_rate) ∧
     (∀ q1 q2 : Quote,
      compute_quote { scenarioA with ltv := 55 } [offerZero] = .ok q1 →
      compute_quote { scenarioA with ltv := 85 } [offerZero] = .ok q2 →
      q1.final_rate ≤ q2.final_rate)) :=
  ⟨by norm_num, by norm_num, by norm_num, by norm_num, by norm_num,
   by norm_num,
   C5_final_rate_monotone scenarioA [offerZero] 680 760 55 85 (by norm_num)
     (by norm_num) (by norm_num) (by norm_num) (by norm_num) (by norm_num)⟩

/-! ## Properties of the optimizer -/

/-- The offer-selection fold starting from a candidate always lands on
some offer. -/
theorem foldl_select_some (l : List RateOffer) (a : RateOffer) :
    ∃ b, l.foldl
      (fun acc o =>
        match acc with
        | none => some o
        | some a => if beatsOffer a o then some o else some a)
      (some a) = some b := by
  induction l generalizing a with
  | nil => exact ⟨a, rfl⟩
  | cons x xs ih =>
    simp only [List.foldl_cons]
    by_cases hb : beatsOffer a x
    · rw [if_pos hb]; exact ih x
    · rw [if_neg hb]; exact ih a

/-- A loan type present in the table always resolves to an offer. -/
theorem selectOffer_of_hasType {rt : RateTable} {lt : String}
    (h : hasType rt lt = true) : ∃ offer, selectOffer lt rt = some offer := by
  unfold selectOffer
  rcases hf : rt.filter (fun o => o.loan_type = lt) with _ | ⟨c, rest⟩
  · exfalso
    unfold hasType at h
    rw [List.any_eq_true] at h
    obtain ⟨o, ho, heq⟩ := h
    have hmem : o ∈ rt.filter (fun o => o.loan_type = lt) :=
      List.mem_filter.2 ⟨ho, heq⟩
    rw [hf] at hmem
    exact absurd hmem (List.not_mem_nil o)
  · rw [hf]
    simp only [List.foldl_cons]
    exact foldl_select_some rest c

/-- A valid scenario whose loan type is in the table always quotes. -/
theorem compute_quote_ok_of_valid {s : BorrowerScenario} {rt : RateTable}
    (hv : ValidScenario s) (hp : hasType rt s.loan_type = true) :
    ∃ q, compute_quote s rt = .ok q := by
  obtain ⟨offer, hsel⟩ := selectOffer_of_hasType hp
  exact ⟨_, compute_quote_ok_intro hv hsel⟩

/-- Constructor form of a successful `optimize`. -/
theorem optimize_ok_intro {s : BorrowerScenario} {rt : RateTable}
    {base : Quote} (hb : compute_quote s rt = .ok base)
    (hpv : propertyValue s ≠ 0) :
    optimize s rt = .ok
      { baseline_quote := base
        credit_options := creditOptions s rt base
        ltv_options := ltvOptions s rt base
        amount_options := amountOptions s rt base
        type_options := typeOptions s rt base
        best_option := pickBest (creditOptions s rt base ++
          ltvOptions s rt base ++ amountOptions s rt base ++
          typeOptions s rt base)
        total_potential_savings :=
          match pickBest (creditOptions s rt base ++ ltvOptions s rt base ++
            amountOptions s rt base ++ typeOptions s rt base) with
          | none => 0
          | some b => base.total_interest - b.resulting_quote.total_interest
        recommended_actions :=
          recommendedActions (creditOptions s rt base) (ltvOptions s rt base)
            (amountOptions s rt base) (typeOptions s rt base) } := by
  unfold optimize
  rw [hb]
  dsimp only
  rw [if_neg hpv]

/-- Inversion of a successful `optimize`: the result's fields are the
baseline quote and the four dimension routines applied to it. -/
theorem optimize_ok_elim {s : BorrowerScenario} {rt : RateTable}
    {r : OptimizationResult} (h : optimize s rt = .ok r) :
    ∃ base, compute_quote s rt = .ok base ∧ r.baseline_quote = base ∧
      r.credit_options = creditOptions s rt base ∧
      r.ltv_options = ltvOptions s rt base ∧
      r.amount_options = amountOptions s rt base ∧
      r.type_options = typeOptions s rt base := by
  unfold optimize at h
  rcases hb : compute_quote s rt with e | base <;> rw [hb] at h <;>
    dsimp only at h
  · exact absurd h (by simp)
  · by_cases hpv : propertyValue s = 0
    · rw [if_pos hpv] at h
      exact absurd h (by simp)
    · rw [if_neg hpv] at h
      simp only [Except.ok.injEq] at h
      subst h
      exact ⟨base, rfl, rfl, rfl, rfl, rfl, rfl⟩

/-- Membership inversion for the credit-score dimension. -/
theorem mem_creditOptions {s : BorrowerScenario} {rt : RateTable}
    {base : Quote} {o : OptimizationOption}
    (h : o ∈ creditOptions s rt base) :
    ∃ t : ℤ, s.credit_score < t ∧
      ∃ q, compute_quote { s with credit_score := t } rt = .ok q ∧
        o.resulting_quote = q := by
  unfold creditOptions at h
  rw [List.mem_filterMap] at h
  obtain ⟨t, ht, hmk⟩ := h
  rcases hq : compute_quote { s with credit_score := t } rt with e | q <;>
    rw [hq] at hmk
  · simp [Except.toOption] at hmk
  · simp only [Except.toOption, Option.map_some', Option.some.injEq] at hmk
    refine ⟨t, ?_, q, hq, ?_⟩
    · have ht2 := List.of_mem_filter ht
      simpa using ht2
    · subst hmk; rfl

/-- Membership inversion for the LTV dimension. -/
theorem mem_ltvOptions {s : BorrowerScenario} {rt : RateTable}
    {base : Quote} {o : OptimizationOption} (h : o ∈ ltvOptions s rt base) :
    ∃ t : ℚ, t < s.ltv ∧
      ∃ nl q,
        compute_quote { s with loan_amount := nl, ltv := t } rt = .ok q ∧
        o.resulting_quote = q := by
  unfold ltvOptions at h
  rw [List.mem_filterMap] at h
  obtain ⟨t, ht, hmk⟩ := h
  dsimp only at hmk
  rcases hq : compute_quote
      { s with loan_amount := propertyValue s * t / 100, ltv := t } rt
    with e | q <;> rw [hq] at hmk
  · simp [Except.toOption] at hmk
  · simp only [Except.toOption, Option.map_some', Option.some.injEq] at hmk
    refine ⟨t, ?_, propertyValue s * t / 100, q, hq, ?_⟩
    · have ht2 := List.of_mem_filter ht
      simpa using ht2
    · split_ifs at hmk <;> (subst hmk; rfl)

/-- Membership inversion for the loan-amount dimension. -/
theorem mem_amountOptions {s : BorrowerScenario} {rt : RateTable}
    {base : Quote} {o : OptimizationOption}
    (h : o ∈ amountOptions s rt base) :
    ∃ f ∈ amountFactors, ∃ q,
      compute_quote
        { s with loan_amount := s.loan_amount * f, ltv := s.loan_amount * f / propertyValue s * 100 } rt = .ok q ∧
      o.resulting_quote = q := by
  unfold amountOptions at h
  rw [List.mem_filterMap] at h
  obtain ⟨f, hf, hmk⟩ := h
  dsimp only at hmk
  rcases hq : compute_quote
      { s with loan_amount := s.loan_amount * f, ltv := s.loan_amount * f / propertyValue s * 100 } rt
    with e | q <;> rw [hq] at hmk
  · simp [Except.toOption] at hmk
  · simp only [Except.toOption, Option.map_some', Option.some.injEq] at hmk
    exact ⟨f, hf, q, hq, by subst hmk; rfl⟩

/-- On a valid scenario, a loan-amount reduction only lowers the derived
LTV. -/
theorem amount_variant_ltv_le {s : BorrowerScenario} (hv : ValidScenario s)
    {f : ℚ} (hf : f ∈ amountFactors) :
    s.loan_amount * f / propertyValue s * 100 ≤ s.ltv := by
  obtain ⟨h1, -, -, h4, -⟩ := hv
  have hne1 : s.loan_amount ≠ 0 := ne_of_gt h1
  have hne2 : s.ltv ≠ 0 := ne_of_gt h4
  have heq : s.loan_amount * f / propertyValue s * 100 = f * s.ltv := by
    unfold propertyValue
    field_simp
    ring
  rw [heq]
  have hf1 : f ≤ 1 := by
    simp only [amountFactors, List.mem_cons, List.not_mem_nil, or_false]
      at hf
    rcases hf with rfl | rfl | rfl <;> norm_num
  nlinarith

/-- C1 (amended): on a valid scenario, every OptimizationOption of the
credit-score, LTV and loan-amount dimensions satisfies
`resulting_quote.final_rate ≤ baseline_quote.final_rate`; the loan-type
dimension is excluded, since it re-quotes other products that can price
higher. -/
theorem C1_nonregression_amended (s : BorrowerScenario) (rt : RateTable)
    (hv : ValidScenario s) :
    ∀ r, optimize s rt = .ok r →
      ∀ o ∈ r.credit_options ++ r.ltv_options ++ r.amount_options,
        o.resulting_quote.final_rate ≤ r.baseline_quote.final_rate := by
  intro r hr o hmem
  obtain ⟨base, hb, hbq, hco, hlo, hao, -⟩ := optimize_ok_elim hr
  rw [hbq]
  rw [hco, hlo, hao] at hmem
  rcases List.mem_append.1 hmem with hmem12 | hmem3
  · rcases List.mem_append.1 hmem12 with hmem1 | hmem2
    · obtain ⟨t, htgt, q, hq, hres⟩ := mem_creditOptions hmem1
      rw [hres]
      exact @final_rate_le_of_adjust_le s { s with credit_score := t } rt
        base q rfl hb hq (adjust_total_le (le_of_lt htgt) le_rfl rfl)
    · obtain ⟨t, htgt, nl, q, hq, hres⟩ := mem_ltvOptions hmem2
      rw [hres]
      exact @final_rate_le_of_adjust_le s
        { s with loan_amount := nl, ltv := t } rt base q rfl hb hq
        (adjust_total_le le_rfl (le_of_lt htgt) rfl)
  · obtain ⟨f, hf, q, hq, hres⟩ := mem_amountOptions hmem3
    rw [hres]
    exact @final_rate_le_of_adjust_le s
      { s with loan_amount := s.loan_amount * f, ltv := s.loan_amount * f / propertyValue s * 100 } rt base q rfl hb
      hq (adjust_total_le le_rfl (amount_variant_ltv_le hv hf) rfl)

/-- Witness for the amended C1 at Scenario A on the zero-rate table. -/
theorem C1_witness :
    ValidScenario scenarioA ∧
    (∀ r, optimize scenarioA [offerZero] = .ok r →
      ∀ o ∈ r.credit_options ++ r.ltv_options ++ r.amount_options,
        o.resulting_quote.final_rate ≤ r.baseline_quote.final_rate) :=
  ⟨by norm_num [ValidScenario, scenarioA],
   C1_nonregression_amended scenarioA [offerZero]
     (by norm_num [ValidScenario, scenarioA])⟩

/-- C7: on every valid scenario whose loan type is quoted in the table,
`optimize` succeeds; a dimension whose candidate list filters to nothing
contributes an empty option list, and in particular a 760 credit score
empties the credit dimension and a 55 LTV empties the LTV dimension. -/
theorem C7_empty_dimensions (s : BorrowerScenario) (rt : RateTable)
    (hv : ValidScenario s) (hp : hasType rt s.loan_type = true) :
    ∃ r, optimize s rt = .ok r ∧
      (creditTargets s = [] → r.credit_options = []) ∧
      (ltvTargets s = [] → r.ltv_options = []) ∧
      (otherTypes s rt = [] → r.type_options = []) ∧
      (s.credit_score = 760 → r.credit_options = []) ∧
      (s.ltv = 55 → r.ltv_options = []) := by
  obtain ⟨q, hq⟩ := compute_quote_ok_of_valid hv hp
  obtain ⟨h1, -, -, h4, -⟩ := hv
  have hpv : propertyValue s ≠ 0 := by
    unfold propertyValue
    have : 0 < s.loan_amount / (s.ltv / 100) :=
      div_pos h1 (div_pos h4 (by norm_num))
    exact ne_of_gt this
  have hcredit : s.credit_score = 760 → creditTargets s = [] := by
    intro h
    unfold creditTargets
    rw [h]
    rfl
  have hltv : s.ltv = 55 → ltvTargets s = [] := by
    intro h
    unfold ltvTargets
    rw [h]
    norm_num
  refine ⟨_, optimize_ok_intro hq hpv, ?_, ?_, ?_, ?_, ?_⟩
  · intro h
    show creditOptions s rt q = []
    unfold creditOptions
    rw [h, List.filterMap_nil]
  · intro h
    show ltvOptions s rt q = []
    unfold ltvOptions
    rw [h, List.filterMap_nil]
  · intro h
    show typeOptions s rt q = []
    unfold typeOptions
    rw [h, List.filterMap_nil]
  · intro h
    show creditOptions s rt q = []
    unfold creditOptions
    rw [hcredit h, List.filterMap_nil]
  · intro h
    show ltvOptions s rt q = []
    unfold ltvOptions
    rw [hltv h, List.filterMap_nil]

/-- Witness for C7 at Scenario B on the zero-rate table. -/
theorem C7_witness :
    ValidScenario scenarioB ∧
    hasType [offerZero] scenarioB.loan_type = true ∧
    (∃ r, optimize scenarioB [offerZero] = .ok r ∧
      (creditTargets scenarioB = [] → r.credit_options = []) ∧
      (ltvTargets scenarioB = [] → r.ltv_options = []) ∧
      (otherTypes scenarioB [offerZero] = [] → r.type_options = []) ∧
      (scenarioB.credit_score = 760 → r.credit_options = []) ∧
      (scenarioB.ltv = 55 → r.ltv_options = [])) :=
  ⟨by norm_num [ValidScenario, scenarioB], rfl,
   C7_empty_dimensions scenarioB [offerZero]
     (by norm_num [ValidScenario, scenarioB]) rfl⟩

/-- A standard 30-year offer at 6%. -/
def offerA : RateOffer :=
  { loan_type := "30yr_fixed", base_rate := 6, base_apr := 31/5,
    fees := 2000, lock_period_days := 30, source := "A" }

/-- A jumbo offer at 8%, pricier than the 30-year standard. -/
def offerJumbo : RateOffer :=
  { loan_type := "jumbo_30yr", base_rate := 8, base_apr := 81/10,
    fees := 1000, lock_period_days := 45, source := "B" }

/-- A two-product rate table. -/
def ratePair : RateTable := [offerA, offerJumbo]

/-- C1 counterexample: on the two-product table, the loan-type dimension
re-quotes the pricier jumbo product, producing an option whose resulting
final rate (8.1875) exceeds the baseline final rate (5.9375), so the claim
as stated — non-regression across all four dimensions — is false. -/
theorem C1_counterexample :
    ¬ (∀ r ∈ (optimize scenarioB ratePair).toOption,
        ∀ o ∈ r.allOptions,
          o.resulting_quote.final_rate ≤ r.baseline_quote.final_rate) := by
  intro hclaim
  have hvB : ValidScenario scenarioB := by norm_num [ValidScenario, scenarioB]
  have hselB : selectOffer scenarioB.loan_type ratePair = some offerA := rfl
  have hb := compute_quote_ok_intro hvB hselB
  obtain ⟨baseQ, hbq⟩ :
      ∃ q, compute_quote scenarioB ratePair = .ok q := ⟨_, hb⟩
  have hpv : propertyValue scenarioB ≠ 0 := by
    norm_num [propertyValue, scenarioB]
  obtain ⟨r0, hr0⟩ : ∃ r, optimize scenarioB ratePair = .ok r :=
    ⟨_, optimize_ok_intro hbq hpv⟩
  have hvJ : ValidScenario { scenarioB with loan_type := "jumbo_30yr" } := by
    norm_num [ValidScenario, scenarioB]
  have hselJ : selectOffer
      ({ scenarioB with loan_type := "jumbo_30yr" }).loan_type ratePair =
      some offerJumbo := rfl
  obtain ⟨qJ, hqJ⟩ :
      ∃ q, compute_quote { scenarioB with loan_type := "jumbo_30yr" }
        ratePair = .ok q := ⟨_, compute_quote_ok_intro hvJ hselJ⟩
  obtain ⟨base', hb', hbq', -, -, -, hto⟩ := optimize_ok_elim hr0
  have hbase' : baseQ = base' := by
    rw [hbq] at hb'
    exact Except.ok.inj hb'
  have hadjB : (adjust scenarioB).total = -1/16 := by
    simp only [adjust, creditScoreComponent, ltvComponent, loanTypeComponent,
      roundBp, scenarioB, String.reduceEq]
    norm_num [round_eq]
  have hadjJ :
      (adjust { scenarioB with loan_type := "jumbo_30yr" }).total = 3/16 := by
    simp only [adjust, creditScoreComponent, ltvComponent, loanTypeComponent,
      roundBp, scenarioB, String.reduceEq]
    norm_num [round_eq]
  obtain ⟨offB, hselB2, -, -, -, -, hfrB, -⟩ := compute_quote_ok_elim hbq
  have hoffB : offB = offerA := by
    rw [hselB] at hselB2
    exact (Option.some.inj hselB2).symm
  have hfrB2 : baseQ.final_rate = 95/16 := by
    rw [hfrB, hoffB, hadjB]
    show max 0 ((6 : ℚ) + -1/16) = 95/16
    rw [max_eq_right (by norm_num)]
    norm_num
  obtain ⟨offJ, hselJ2, -, -, -, -, hfrJ, -⟩ := compute_quote_ok_elim hqJ
  have hoffJ : offJ = offerJumbo := by
    rw [hselJ] at hselJ2
    exact (Option.some.inj hselJ2).symm
  have hfrJ2 : qJ.final_rate = 131/16 := by
    rw [hfrJ, hoffJ, hadjJ]
    show max 0 ((8 : ℚ) + 3/16) = 131/16
    rw [max_eq_right (by norm_num)]
    norm_num
  have hot : otherTypes scenarioB ratePair = ["jumbo_30yr"] := rfl
  have htypes : typeOptions scenarioB ratePair base' =
      [mkOption "loan_type" 0 0 (some "jumbo_30yr") base' qJ .medium none
        (typeNote "jumbo_30yr")] := by
    unfold typeOptions
    rw [hot]
    simp only [List.filterMap_cons, List.filterMap_nil]
    rw [hqJ]
    simp [Except.toOption]
  have hmem : mkOption "loan_type" 0 0 (some "jumbo_30yr") base' qJ .medium
      none (typeNote "jumbo_30yr") ∈ r0.allOptions := by
    unfold OptimizationResult.allOptions
    rw [hto, htypes]
    simp
  have hr0mem : r0 ∈ (optimize scenarioB ratePair).toOption := by
    rw [hr0]
    simp [Except.toOption]
  have hle := hclaim r0 hr0mem _ hmem
  rw [hbq'] at hle
  have hle2 : qJ.final_rate ≤ baseQ.final_rate := by
    rw [hbase']
    simpa [mkOption] using hle
  rw [hfrJ2, hfrB2] at hle2
  norm_num at hle2

/-! ## Error taxonomy of the quote engine -/

/-- A loan type absent from the table resolves to no offer. -/
theorem selectOffer_none_of_not_hasType {rt : RateTable} {lt : String}
    (h : hasType rt lt = false) : selectOffer lt rt = none := by
  unfold selectOffer
  have hf : rt.filter (fun o => o.loan_type = lt) = [] := by
    rw [List.filter_eq_nil_iff]
    intro o ho
    unfold hasType at h
    rw [List.any_eq_false] at h
    exact h o ho
  rw [hf]
  rfl

/-- Ineligibility and a nonempty reason list coincide. -/
theorem eligibility_reason_iff (s : BorrowerScenario) :
    isEligible s = false ↔ eligibilityReasons s ≠ [] := by
  unfold isEligible eligibilityReasons
  by_cases h1 : s.credit_score < programFloor s.loan_type <;>
    by_cases h2 : productMaxLtv s.loan_type < s.ltv <;>
      simp [h1, h2]

/-- C6: `compute_quote` raises ValidationError exactly on a domain
violation, NotFoundError exactly when a valid scenario's loan type is
absent from the table, returns a Quote exactly when the scenario is valid
and the loan type is present, and an ineligible borrower is reported in
the Quote (is_eligible=false with reasons), never as an exception. -/
theorem C6_error_taxonomy (s : BorrowerScenario) (rt : RateTable) :
    ((∃ f, compute_quote s rt = .error (.validation f)) ↔
      (s.loan_amount ≤ 0 ∨ s.credit_score < 300 ∨ 850 < s.credit_score ∨
        s.ltv ≤ 0 ∨ 100 < s.ltv)) ∧
    ((compute_quote s rt = .error (.notFound s.loan_type)) ↔
      (ValidScenario s ∧ hasType rt s.loan_type = false)) ∧
    ((∃ q, compute_quote s rt = .ok q) ↔
      (ValidScenario s ∧ hasType rt s.loan_type = true)) ∧
    (∀ q, compute_quote s rt = .ok q →
      (q.is_eligible = false ↔ q.eligibility_reasons ≠ [])) ∧
    (s.loan_amount ≤ 0 →
      compute_quote s rt = .error (.validation "loan_amount")) ∧
    (¬ s.loan_amount ≤ 0 →
      (s.credit_score < 300 ∨ 850 < s.credit_score) →
      compute_quote s rt = .error (.validation "credit_score")) ∧
    (¬ s.loan_amount ≤ 0 →
      ¬ (s.credit_score < 300 ∨ 850 < s.credit_score) →
      (s.ltv ≤ 0 ∨ 100 < s.ltv) →
      compute_quote s rt = .error (.validation "ltv")) := by
  have hname1 : s.loan_amount ≤ 0 →
      compute_quote s rt = .error (.validation "loan_amount") := by
    intro h
    unfold compute_quote
    rw [if_pos h]
  have hname2 : ¬ s.loan_amount ≤ 0 →
      (s.credit_score < 300 ∨ 850 < s.credit_score) →
      compute_quote s rt = .error (.validation "credit_score") := by
    intro h1 h2
    unfold compute_quote
    rw [if_neg h1, if_pos h2]
  have hname3 : ¬ s.loan_amount ≤ 0 →
      ¬ (s.credit_score < 300 ∨ 850 < s.credit_score) →
      (s.ltv ≤ 0 ∨ 100 < s.ltv) →
      compute_quote s rt = .error (.validation "ltv") := by
    intro h1 h2 h3
    unfold compute_quote
    rw [if_neg h1, if_neg h2, if_pos h3]
  have h4 : ∀ q, compute_quote s rt = .ok q →
      (q.is_eligible = false ↔ q.eligibility_reasons ≠ []) := by
    intro q hq
    obtain ⟨off, -, -, -, -, -, -, -, -, -, helig, hreas, -⟩ :=
      compute_quote_ok_elim hq
    rw [helig, hreas]
    exact eligibility_reason_iff s
  by_cases hP1 : s.loan_amount ≤ 0
  · have hcq : compute_quote s rt = .error (.validation "loan_amount") := by
      unfold compute_quote
      rw [if_pos hP1]
    refine ⟨iff_of_true ⟨"loan_amount", hcq⟩ (Or.inl hP1),
      iff_of_false ?_ ?_, iff_of_false ?_ ?_, h4, hname1, hname2, hname3⟩
    · intro h; rw [hcq] at h; simp at h
    · rintro ⟨⟨hv, -⟩, -⟩; exact absurd hv (not_lt.mpr hP1)
    · rintro ⟨q, hq⟩; rw [hcq] at hq; simp at hq
    · rintro ⟨⟨hv, -⟩, -⟩; exact absurd hv (not_lt.mpr hP1)
  · by_cases hP2 : s.credit_score < 300 ∨ 850 < s.credit_score
    · have hcq : compute_quote s rt = .error (.validation "credit_score") := by
        unfold compute_quote
        rw [if_neg hP1, if_pos hP2]
      refine ⟨iff_of_true ⟨"credit_score", hcq⟩ ?_, iff_of_false ?_ ?_,
        iff_of_false ?_ ?_, h4, hname1, hname2, hname3⟩
      · rcases hP2 with h | h
        · exact Or.inr (Or.inl h)
        · exact Or.inr (Or.inr (Or.inl h))
      · intro h; rw [hcq] at h; simp at h
      · rintro ⟨⟨-, h2a, h2b, -⟩, -⟩; rcases hP2 with h | h <;> omega
      · rintro ⟨q, hq⟩; rw [hcq] at hq; simp at hq
      · rintro ⟨⟨-, h2a, h2b, -⟩, -⟩; rcases hP2 with h | h <;> omega
    · by_cases hP3 : s.ltv ≤ 0 ∨ 100 < s.ltv
      · have hcq : compute_quote s rt = .error (.validation "ltv") := by
          unfold compute_quote
          rw [if_neg hP1, if_neg hP2, if_pos hP3]
        refine ⟨iff_of_true ⟨"ltv", hcq⟩ ?_, iff_of_false ?_ ?_,
          iff_of_false ?_ ?_, h4, hname1, hname2, hname3⟩
        · rcases hP3 with h | h
          · exact Or.inr (Or.inr (Or.inr (Or.inl h)))
          · exact Or.inr (Or.inr (Or.inr (Or.inr h)))
        · intro h; rw [hcq] at h; simp at h
        · rintro ⟨⟨-, -, -, h3a, h3b⟩, -⟩; rcases hP3 with h | h <;> linarith
        · rintro ⟨q, hq⟩; rw [hcq] at hq; simp at hq
        · rintro ⟨⟨-, -, -, h3a, h3b⟩, -⟩; rcases hP3 with h | h <;> linarith
      · have hP2c := hP2
        have hP3c := hP3
        push_neg at hP2c hP3c
        have hv : ValidScenario s :=
          ⟨not_le.1 hP1, hP2c.1, hP2c.2, hP3c.1, hP3c.2⟩
        have hnotval : ¬ (s.loan_amount ≤ 0 ∨ s.credit_score < 300 ∨
            850 < s.credit_score ∨ s.ltv ≤ 0 ∨ 100 < s.ltv) := by
          rintro (h | h | h | h | h)
          · exact hP1 h
          · exact hP2 (Or.inl h)
          · exact hP2 (Or.inr h)
          · exact hP3 (Or.inl h)
          · exact hP3 (Or.inr h)
        rcases hht : hasType rt s.loan_type with _ | _
        · have hsel := selectOffer_none_of_not_hasType hht
          have hcq : compute_quote s rt = .error (.notFound s.loan_type) := by
            unfold compute_quote
            rw [if_neg hP1, if_neg hP2, if_neg hP3, hsel]
          refine ⟨iff_of_false ?_ hnotval, iff_of_true hcq ⟨hv, rfl⟩,
            iff_of_false ?_ ?_, h4, hname1, hname2, hname3⟩
          · rintro ⟨f, hf⟩; rw [hcq] at hf; simp at hf
          · rintro ⟨q, hq⟩; rw [hcq] at hq; simp at hq
          · rintro ⟨-, htrue⟩; simp at htrue
        · obtain ⟨q, hq⟩ := compute_quote_ok_of_valid hv hht
          refine ⟨iff_of_false ?_ hnotval, iff_of_false ?_ ?_,
            iff_of_true ⟨q, hq⟩ ⟨hv, rfl⟩, h4, hname1, hname2, hname3⟩
          · rintro ⟨f, hf⟩; rw [hq] at hf; simp at hf
          · intro h; rw [hq] at h; simp at h
          · rintro ⟨-, hfalse⟩; simp at hfalse

/-- Witness for C6 at Scenario B on the zero-rate table. -/
theorem C6_witness :
    ((∃ f, compute_quote scenarioB [offerZero] = .error (.validation f)) ↔
      (scenarioB.loan_amount ≤ 0 ∨ scenarioB.credit_score < 300 ∨
        850 < scenarioB.credit_score ∨ scenarioB.ltv ≤ 0 ∨
        100 < scenarioB.ltv)) ∧
    ((compute_quote scenarioB [offerZero] =
        .error (.notFound scenarioB.loan_type)) ↔
      (ValidScenario scenarioB ∧
        hasType [offerZero] scenarioB.loan_type = false)) ∧
    ((∃ q, compute_quote scenarioB [offerZero] = .ok q) ↔
      (ValidScenario scenarioB ∧
        hasType [offerZero] scenarioB.loan_type = true)) ∧
    (∀ q, compute_quote scenarioB [offerZero] = .ok q →
      (q.is_eligible = false ↔ q.eligibility_reasons ≠ [])) ∧
    (scenarioB.loan_amount ≤ 0 →
      compute_quote scenarioB [offerZero] = .error (.validation "loan_amount")) ∧
    (¬ scenarioB.loan_amount ≤ 0 →
      (scenarioB.credit_score < 300 ∨ 850 < scenarioB.credit_score) →
      compute_quote scenarioB [offerZero] = .error (.validation "credit_score")) ∧
    (¬ scenarioB.loan_amount ≤ 0 →
      ¬ (scenarioB.credit_score < 300 ∨ 850 < scenarioB.credit_score) →
      (scenarioB.ltv ≤ 0 ∨ 100 < scenarioB.ltv) →
      compute_quote scenarioB [offerZero] = .error (.validation "ltv")) :=
  C6_error_taxonomy scenarioB [offerZero]

/-! ## Shape of the public API types -/

/-- C8: the RateOptimization interface carries exactly the three dimensions
credit_score, ltv and loan_amount — each a single recommendation object,
not a list — and no loan-type dimension; RateQuote names the
post-adjustment rate `adjusted_rate`, has no `final_apr` field, and its
`llpas` object carries only credit-score, LTV and total components. -/
theorem C8_api_shape :
    fieldNames optimizationsFields = ["credit_score", "ltv", "loan_amount"] ∧
    lookupField rateOptimizationFields "optimizations" =
      some (.obj optimizationsFields) ∧
    optimizationsFields.all (fun f => (f.2).isObj) = true ∧
    (fieldNames optimizationsFields).contains "loan_type" = false ∧
    (fieldNames rateQuoteFields).contains "adjusted_rate" = true ∧
    (fieldNames rateQuoteFields).contains "final_apr" = false ∧
    lookupField rateQuoteFields "llpas" = some (.obj llpasFields) ∧
    fieldNames llpasFields =
      ["credit_score_adjustment", "ltv_adjustment", "total_adjustment"] ∧
    (fieldNames llpasFields).contains "loan_type_adjustment" = false :=
  ⟨rfl, rfl, rfl, rfl, rfl, rfl, rfl, rfl, rfl⟩

/-! ## Properties of the Gmail extraction -/

/-- A digit character's value is at most nine. -/
theorem digitVal_le_nine {c : Char} (h : isDigitCh c = true) :
    digitVal c ≤ 9 := by
  unfold isDigitCh at h
  unfold digitVal
  simp only [decide_eq_true_eq, Bool.and_eq_true] at h
  omega

/-- One LTV match attempt captures at most two digits, so its value is at
most 99. -/
theorem tryLtvAt_le {s : List Char} {v : ℕ} (h : tryLtvAt s = some v) :
    v ≤ 99 := by
  unfold tryLtvAt at h
  rcases hk : matchLtvKey s with _ | r <;> rw [hk] at h
  · rw [Option.none_bind'] at h
    exact absurd h (by simp)
  · rw [Option.some_bind'] at h
    rcases hd : dropColonSpaces r with _ | ⟨d1, rest⟩ <;> rw [hd] at h
    · exact absurd h (by simp)
    · rcases rest with _ | ⟨d2, rest2⟩ <;> dsimp only at h
      · split_ifs at h with h1
        have hb1 := digitVal_le_nine h1
        simp only [Option.some.injEq] at h
        omega
      · split_ifs at h with h1 h2
        · have hb1 := digitVal_le_nine h1
          have hb2 := digitVal_le_nine h2
          simp only [Option.some.injEq] at h
          omega
        · have hb1 := digitVal_le_nine h1
          simp only [Option.some.injEq] at h
          omega

/-- The LTV scan only ever reports one- or two-digit values. -/
theorem scanLtv_le {s : List Char} {v : ℕ} (h : scanLtv s = some v) :
    v ≤ 99 := by
  induction s with
  | nil => simp [scanLtv] at h
  | cons c cs ih =>
    unfold scanLtv at h
    rcases ht : tryLtvAt (c :: cs) with _ | w <;> rw [ht] at h <;>
      dsimp only at h
    · exact ih h
    · simp only [Option.some.injEq] at h
      subst h
      exact tryLtvAt_le ht

/-- C9: `extractLoanInfo` always returns a fully populated record,
substituting 500000 / 720 / 80 / 30yr_fixed for a field whose pattern does
not match; and `extractLTV` only ever returns a one- or two-digit value,
so an LTV of 100 in the email text is never extracted as 100. -/
theorem C9_gmail_extraction (body : String) :
    (extractLoanAmount body = none →
      (extractLoanInfo body).loan_amount = 500000) ∧
    (extractCreditScore body = none →
      (extractLoanInfo body).credit_score = 720) ∧
    (extractLTV body = none → (extractLoanInfo body).ltv = 80) ∧
    (containsSub "fha".data body.toLower.data = false →
      containsSub "va".data body.toLower.data = false →
      containsSub "usda".data body.toLower.data = false →
      contains15Year body.toLower.data = false →
      (extractLoanInfo body).loan_type = "30yr_fixed") ∧
    (∀ v, extractLTV body = some v → v ≤ 99) ∧
    (extractLoanInfo body).ltv ≤ 99 := by
  refine ⟨?_, ?_, ?_, ?_, ?_, ?_⟩
  · intro h
    show orFalsyQ (extractLoanAmount body) 500000 = 500000
    rw [h]
    rfl
  · intro h
    show orFalsyN (extractCreditScore body) 720 = 720
    rw [h]
    rfl
  · intro h
    show orFalsyN (extractLTV body) 80 = 80
    rw [h]
    rfl
  · intro h1 h2 h3 h4
    show extractLoanType body = "30yr_fixed"
    unfold extractLoanType
    rw [if_neg (by simp [h1]), if_neg (by simp [h2]), if_neg (by simp [h3]),
      if_neg (by simp [h4])]
  · intro v h
    exact scanLtv_le h
  · show orFalsyN (extractLTV body) 80 ≤ 99
    rcases hl : extractLTV body with _ | v
    · norm_num [orFalsyN]
    · have hv : v ≤ 99 := scanLtv_le hl
      unfold orFalsyN
      dsimp only
      split_ifs
      · norm_num
      · exact hv

/-- Witness for C9 at the empty email body. -/
theorem C9_witness :
    (extractLoanAmount "" = none →
      (extractLoanInfo "").loan_amount = 500000) ∧
    (extractCreditScore "" = none →
      (extractLoanInfo "").credit_score = 720) ∧
    (extractLTV "" = none → (extractLoanInfo "").ltv = 80) ∧
    (containsSub "fha".data "".toLower.data = false →
      containsSub "va".data "".toLower.data = false →
      containsSub "usda".data "".toLower.data = false →
      contains15Year "".toLower.data = false →
      (extractLoanInfo "").loan_type = "30yr_fixed") ∧
    (∀ v, extractLTV "" = some v → v ≤ 99) ∧
    (extractLoanInfo "").ltv ≤ 99 :=
  C9_gmail_extraction ""

/-! ## Properties of the API client -/

/-- The common response-handling shape of the client functions: throw on a
non-ok response, otherwise return the parsed body. -/
theorem fetch_handler_spec {β : Type} (resp : HttpResponse β) (msg : String) :
    ((∃ e, (if ¬ resp.ok then Except.error (msg ++ resp.statusText)
        else Except.ok resp.body : Except String β) = .error e) ↔
      resp.ok = false) ∧
    (resp.ok = true →
      (if ¬ resp.ok then Except.error (msg ++ resp.statusText)
        else Except.ok resp.body : Except String β) = .ok resp.body) := by
  rcases hok : resp.ok with _ | _
  · simp [hok]
  · simp [hok]

/-- C10: each client function — generateQuote, optimizeRates,
analyzeQuote, quickRateAnalysis — throws exactly when the HTTP response is
not ok and otherwise returns the parsed body unchanged; each issues its
one request with no retry. -/
theorem C10_client_error_handling {β γ δ : Type}
    (fetchQ fetchO fetchK : RateParams → HttpResponse β)
    (fetchA : γ × δ → HttpResponse β) (params : RateParams)
    (quote : γ) (profile : δ) :
    ((∃ e, generateQuote fetchQ params = .error e) ↔
      (fetchQ params).ok = false) ∧
    ((fetchQ params).ok = true →
      generateQuote fetchQ params = .ok (fetchQ params).body) ∧
    ((∃ e, optimizeRates fetchO params = .error e) ↔
      (fetchO params).ok = false) ∧
    ((fetchO params).ok = true →
      optimizeRates fetchO params = .ok (fetchO params).body) ∧
    ((∃ e, analyzeQuote fetchA quote profile = .error e) ↔
      (fetchA (quote, profile)).ok = false) ∧
    ((fetchA (quote, profile)).ok = true →
      analyzeQuote fetchA quote profile =
        .ok (fetchA (quote, profile)).body) ∧
    ((∃ e, quickRateAnalysis fetchK params = .error e) ↔
      (fetchK params).ok = false) ∧
    ((fetchK params).ok = true →
      quickRateAnalysis fetchK params = .ok (fetchK params).body) :=
  ⟨(fetch_handler_spec (fetchQ params) "Failed to generate quote: ").1,
   (fetch_handler_spec (fetchQ params) "Failed to generate quote: ").2,
   (fetch_handler_spec (fetchO params) "Failed to optimize rates: ").1,
   (fetch_handler_spec (fetchO params) "Failed to optimize rates: ").2,
   (fetch_handler_spec (fetchA (quote, profile))
     "Failed to analyze quote: ").1,
   (fetch_handler_spec (fetchA (quote, profile))
     "Failed to analyze quote: ").2,
   (fetch_handler_spec (fetchK params)
     "Failed to perform quick rate analysis: ").1,
   (fetch_handler_spec (fetchK params)
     "Failed to perform quick rate analysis: ").2⟩

/-- A constant successful response used by the C10 witness. -/
def respOk : HttpResponse ℕ := { ok := true, statusText := "OK", body := 7 }

/-- Witness parameters for the client functions. -/
def paramsW : RateParams :=
  { loan_amount := 500000, credit_score := 720, ltv := 80,
    loan_type := "30yr_fixed" }

/-- Witness for C10 with constant fetchers. -/
theorem C10_witness :
    ((∃ e, generateQuote (fun _ => respOk) paramsW = .error e) ↔
      ((fun _ : RateParams => respOk) paramsW).ok = false) ∧
    (((fun _ : RateParams => respOk) paramsW).ok = true →
      generateQuote (fun _ => respOk) paramsW =
        .ok ((fun _ : RateParams => respOk) paramsW).body) ∧
    ((∃ e, optimizeRates (fun _ => respOk) paramsW = .error e) ↔
      ((fun _ : RateParams => respOk) paramsW).ok = false) ∧
    (((fun _ : RateParams => respOk) paramsW).ok = true →
      optimizeRates (fun _ => respOk) paramsW =
        .ok ((fun _ : RateParams => respOk) paramsW).body) ∧
    ((∃ e, analyzeQuote (fun _ => respOk) (1 : ℕ) (2 : ℕ) = .error e) ↔
      ((fun _ : ℕ × ℕ => respOk) (1, 2)).ok = false) ∧
    (((fun _ : ℕ × ℕ => respOk) (1, 2)).ok = true →
      analyzeQuote (fun _ => respOk) (1 : ℕ) (2 : ℕ) =
        .ok ((fun _ : ℕ × ℕ => respOk) (1, 2)).body) ∧
    ((∃ e, quickRateAnalysis (fun _ => respOk) paramsW = .error e) ↔
      ((fun _ : RateParams => respOk) paramsW).ok = false) ∧
    (((fun _ : RateParams => respOk) paramsW).ok = true →
      quickRateAnalysis (fun _ => respOk) paramsW =
        .ok ((fun _ : RateParams => respOk) paramsW).body) :=
  C10_client_error_handling (fun _ => respOk) (fun _ => respOk)
    (fun _ => respOk) (fun _ => respOk) paramsW 1 2

end Frankie
